import Mathlib

/-!
Verification development for the Search-O-Bar retrieval-augmented chat backend.
The Python sources (app.py, summarizer.py, search.py) are shallowly embedded:
strings are `String`/`List Char`, the external collaborators (search provider,
article extractor, Ollama HTTP endpoint) are function parameters, and the
in-memory session/source stores are association lists threaded explicitly.
-/

set_option autoImplicit false

namespace SearchOBar

/-! ### Python-style string primitives (ASCII fragment used by the app) -/

/-- Whitespace characters recognised by Python `str.strip` / `\s` (ASCII part). -/
def isSpaceChar (c : Char) : Bool :=
  c = ' ' || c = '\t' || c = '\n' || c = '\r' || c = Char.ofNat 11 || c = Char.ofNat 12

/-- Word characters of the regex class `\w` (ASCII part). -/
def isWordChar (c : Char) : Bool :=
  c.isAlphanum || c = '_'

/-- Digit characters of the regex class `\d` (ASCII part). -/
def isDigitChar (c : Char) : Bool :=
  c.isDigit

/-- Python `str.strip()` on a character list. -/
def pyStripL (s : List Char) : List Char :=
  ((s.dropWhile isSpaceChar).reverse.dropWhile isSpaceChar).reverse

/-- Python `str.strip()`. -/
def pyStripS (s : String) : String :=
  String.mk (pyStripL s.toList)

/-- Python `str.lower()` (ASCII case mapping). -/
def pyLowerL (s : List Char) : List Char :=
  s.map Char.toLower

/-- Helper for `pySplit`: accumulates the current word (reversed). -/
def pySplitAux : List Char → List Char → List (List Char)
  | [], acc => if acc = [] then [] else [acc.reverse]
  | c :: t, acc =>
    if isSpaceChar c then
      if acc = [] then pySplitAux t [] else acc.reverse :: pySplitAux t []
    else pySplitAux t (c :: acc)

/-- Python `str.split()` with no separator: splits on whitespace runs, no empty tokens. -/
def pySplit (s : List Char) : List (List Char) :=
  pySplitAux s []

/-- Python substring containment `needle in hay`. -/
def isSubstrOf (needle : List Char) : List Char → Bool
  | [] => needle.isPrefixOf []
  | c :: t => needle.isPrefixOf (c :: t) || isSubstrOf needle t

/-- One fuel-measured pass of Python `str.replace(old, new)`; fuel bounds the
number of characters consumed, which is enough because each step consumes at
least one character. -/
def replaceStep (src dst : List Char) : Nat → List Char → List Char
  | 0, s => s
  | _ + 1, [] => []
  | fuel + 1, c :: rest =>
    if src ≠ [] ∧ src.isPrefixOf (c :: rest) then
      dst ++ replaceStep src dst fuel (List.drop (src.length - 1) rest)
    else
      c :: replaceStep src dst fuel rest

/-- Python `s.replace(old, new)` on character lists (`old` nonempty in all uses). -/
def replaceAllL (src dst s : List Char) : List Char :=
  replaceStep src dst s.length s

/-- Python `s.replace(old, new)`. -/
def py_replace (s old new : String) : String :=
  String.mk (replaceAllL old.toList new.toList s.toList)

/-- Python `s.startswith(pre)`. -/
def py_startswith (s pre : String) : Bool :=
  pre.toList.isPrefixOf s.toList

/-- Python `int(g)` for a digit string. -/
def natOfDigits (g : List Char) : Nat :=
  g.foldl (fun a c => 10 * a + (c.toNat - 48)) 0

/-- Python `sep.join(blocks)`. -/
def joinSep (sep : String) : List String → String
  | [] => ""
  | [x] => x
  | x :: r => x ++ sep ++ joinSep sep r

/-- Python slice `s[:n]` (by code points, as in Python). -/
def pySlice (s : String) (n : Nat) : String :=
  String.mk (s.toList.take n)

/-! ### A small backtracking regex engine

Only the constructs appearing in the `app.py` patterns are supported:
literal strings, ordered alternation, greedy `\s+`, `\s*`, optional pieces,
captured `(\d+)` / `(\w+)` (greedy plus over a character class), and the word
boundary `\b`.  `reSearch` reproduces `re.search`: leftmost starting position,
and at a given position the backtracking preference order of the Python engine
(left alternative first, greedy quantifiers longest first). -/

inductive Rgx where
  | nul : Rgx
  | eps : Rgx
  | toks (cs : List Char) : Rgx
  | cat (a b : Rgx) : Rgx
  | alt (a b : Rgx) : Rgx
  | opt (a : Rgx) : Rgx
  | starCls (p : Char → Bool) : Rgx
  | plusCls (p : Char → Bool) : Rgx
  | grpCls (p : Char → Bool) : Rgx
  | bnd : Rgx

/-- Length of the maximal prefix run satisfying `p`. -/
def runLen (p : Char → Bool) : List Char → Nat
  | [] => 0
  | c :: t => if p c then runLen p t + 1 else 0

/-- A match outcome: captured groups (in order), the character just before the
current position (for `\b`), and the remaining input. -/
abbrev MatchRes := List (List Char) × Option Char × List Char

/-- The previous-character marker after consuming `k` characters of `s`. -/
def prevAfter (pv : Option Char) (s : List Char) (k : Nat) : Option Char :=
  match (s.take k).getLast? with
  | some c => some c
  | none => pv

/-- Consumption alternatives of a greedy class star: `k, k-1, …, 0` characters. -/
def runSplits (pv : Option Char) (s : List Char) : Nat → List MatchRes
  | 0 => [([], pv, s)]
  | k + 1 => ([], prevAfter pv s (k + 1), s.drop (k + 1)) :: runSplits pv s k

/-- Consumption alternatives of a greedy class plus: `k, k-1, …, 1` characters. -/
def runSplitsPos (pv : Option Char) (s : List Char) : Nat → List MatchRes
  | 0 => []
  | k + 1 => ([], prevAfter pv s (k + 1), s.drop (k + 1)) :: runSplitsPos pv s k

/-- Consumption alternatives of a captured greedy class plus. -/
def runSplitsGrp (pv : Option Char) (s : List Char) : Nat → List MatchRes
  | 0 => []
  | k + 1 => ([s.take (k + 1)], prevAfter pv s (k + 1), s.drop (k + 1)) :: runSplitsGrp pv s k

/-- Whether `c` is a word character, with `none` meaning outside the text. -/
def isWordOpt : Option Char → Bool
  | some c => isWordChar c
  | none => false

/-- All ways a regex can match a prefix of `s`, in backtracking preference order. -/
def reRun : Rgx → Option Char → List Char → List MatchRes
  | .nul, _, _ => []
  | .eps, pv, s => [([], pv, s)]
  | .toks cs, pv, s =>
    if cs.isPrefixOf s then
      [([], prevAfter pv s cs.length, s.drop cs.length)]
    else []
  | .cat a b, pv, s =>
    (reRun a pv s).flatMap fun r =>
      (reRun b r.2.1 r.2.2).map fun r2 => (r.1 ++ r2.1, r2.2.1, r2.2.2)
  | .alt a b, pv, s => reRun a pv s ++ reRun b pv s
  | .opt a, pv, s => reRun a pv s ++ [([], pv, s)]
  | .starCls p, pv, s => runSplits pv s (runLen p s)
  | .plusCls p, pv, s => runSplitsPos pv s (runLen p s)
  | .grpCls p, pv, s => runSplitsGrp pv s (runLen p s)
  | .bnd, pv, s => if isWordOpt pv != isWordOpt s.head? then [([], pv, s)] else []

/-- Leftmost search: try to match at each successive start position. -/
def searchFrom (r : Rgx) (pv : Option Char) (s : List Char) : Option (List (List Char)) :=
  match reRun r pv s with
  | g :: _ => some g.1
  | [] =>
    match s with
    | [] => none
    | c :: t => searchFrom r (some c) t

/-- `re.search(r, s)` returning the captured groups of the first match. -/
def reSearch (r : Rgx) (s : List Char) : Option (List (List Char)) :=
  searchFrom r none s

/-- Literal-string regex. -/
def lit (s : String) : Rgx :=
  .toks s.toList

/-- Sequencing of a pattern list. -/
def catList (l : List Rgx) : Rgx :=
  l.foldr .cat .eps

/-- Ordered alternation of a pattern list. -/
def altList (l : List Rgx) : Rgx :=
  l.foldr .alt .nul

/-! ### Data model (app.py in-memory stores)

`SESSIONS` maps a session id to a transcript of role/content messages;
`SOURCES` maps it to the enriched source list.  Python dicts are embedded as
association lists with dict update semantics (replace in place, append new
keys at the end). -/

/-- One conversation message (a `{"role": ..., "content": ...}` dict). -/
structure Message where
  role : String
  content : String
deriving DecidableEq

/-- One enriched RAG source (a `{"title","url","snippet","content"}` dict). -/
structure Source where
  title : String
  url : String
  snippet : String
  content : String
deriving DecidableEq

/-- One raw search result; `url` and `link` model the two key aliases a
result dict may carry (missing key = empty string). -/
structure SearchResult where
  title : String
  url : String
  link : String
  snippet : String
deriving DecidableEq

abbrev Transcript := List Message

/-- Association-list lookup (`d.get(k)`). -/
def lookupA {α : Type} : List (String × α) → String → Option α
  | [], _ => none
  | p :: rest, k => if p.1 = k then some p.2 else lookupA rest k

/-- Association-list store (`d[k] = v`): replace in place or append. -/
def insertA {α : Type} : List (String × α) → String → α → List (String × α)
  | [], k, v => [(k, v)]
  | p :: rest, k, v => if p.1 = k then (k, v) :: rest else p :: insertA rest k v

/-- The two global stores of app.py. -/
structure St where
  sessions : List (String × Transcript)
  sources : List (String × List Source)
deriving DecidableEq

/-! ### summarizer.py -/

/-- The sentinel the grounded generator returns for insufficient context. -/
def RAG_FAILURE_CODE : String := "RAG_CONTEXT_INSUFFICIENT"

/-- The Ollama `/api/chat` collaborator at the HTTP boundary: it either
returns the reply content or raises (network error, timeout, bad status). -/
abbrev ChatPost := List Message → Except String String

/-- summarizer._ollama_chat: posts the messages and strips the reply; any
exception is caught and rendered as an error-tagged string. -/
def ollama_chat (post : ChatPost) (messages : List Message) : String :=
  match post messages with
  | .ok content => pyStripS content
  | .error e => "[ERROR] Failed to call Ollama chat: " ++ e

/-- Numbered source blocks of summarizer.generate_answer_from_sources;
the counter advances even over entries skipped for an empty body. -/
def buildBlocks : Nat → List Source → List String
  | _, [] => []
  | i, s :: rest =>
    let body := if s.content ≠ "" then s.content else s.snippet
    if body = "" then buildBlocks (i + 1) rest
    else
      let t := s.title
      let u := s.url
      ("[" ++ toString i ++ "] " ++ t ++ "\nURL: " ++ u ++ "\n" ++ body) :: buildBlocks (i + 1) rest

/-- summarizer.generate_answer_from_sources.  The input is a Python list
whose entries may fail `isinstance(item, dict)` (embedded as `none`). -/
def generate_answer_from_sources (post : ChatPost) (query : String)
    (sources : List (Option Source)) : String :=
  let norm := sources.filterMap id
  if norm = [] then RAG_FAILURE_CODE
  else
    let blocks := buildBlocks 1 norm
    if blocks = [] then RAG_FAILURE_CODE
    else
      let system_msg :=
        "You are a helpful research assistant. Use ONLY the provided sources to answer. Cite like [1], [2] in the text when using a source. If sources are insufficient, reply exactly: RAG_CONTEXT_INSUFFICIENT."
      let user_msg :=
        "Question: " ++ query ++ "\n\nSources:\n" ++ joinSep "\n\n" blocks ++ "\n\nWrite a concise answer with citations."
      let out := ollama_chat post [⟨"system", system_msg⟩, ⟨"user", user_msg⟩]
      if out = "" then RAG_FAILURE_CODE
      else if isSubstrOf RAG_FAILURE_CODE.toList out.toList then RAG_FAILURE_CODE
      else pyStripS out

/-- summarizer.generate_general_answer. -/
def generate_general_answer (post : ChatPost) (query : String) : String :=
  let out := ollama_chat post
    [⟨"system", "You are a concise, friendly assistant."⟩, ⟨"user", query⟩]
  if out = "" then "I couldn\x27t generate an answer." else pyStripS out

/-- The message list ChatBot.chat actually posts: a default system message is
prepended when the history does not start with one. -/
def chat_request_msgs (history : Transcript) : Transcript :=
  match history with
  | [] => [⟨"system", "You are a helpful assistant."⟩]
  | m :: _ =>
    if m.role ≠ "system" then ⟨"system", "You are a helpful assistant."⟩ :: history
    else history

/-- summarizer.ChatBot().chat(history=...). -/
def chatbot_chat (post : ChatPost) (history : Transcript) : String :=
  ollama_chat post (chat_request_msgs history)

/-! ### app.py: classifier, fetcher, session helpers -/

/-- The article-extraction collaborator (trafilatura fetch_url + extract):
`none` models a failed download, an exception, or an empty extraction. -/
abbrev Extractor := String → Option String

def arithmetic_keywords : List String :=
  ["+", "-", "*", "/", "x", "what is", "calculate", "solve"]

/-- app.is_simple_logical_query. -/
def is_simple_logical_query (query : String) : Bool :=
  let normalized := pyStripL (pyLowerL query.toList)
  let has_op := arithmetic_keywords.any (fun op => isSubstrOf op.toList normalized)
  let has_num := normalized.any Char.isDigit
  has_op && has_num && decide ((pySplit normalized).length < 7)

def MAX_CHARS_PER_SOURCE : Nat := 6000

/-- app._clean_text: collapse whitespace runs to single spaces, then strip. -/
def collapseWsAux : Bool → List Char → List Char
  | _, [] => []
  | inWs, c :: t =>
    if isSpaceChar c then
      if inWs then collapseWsAux true t else ' ' :: collapseWsAux true t
    else c :: collapseWsAux false t

/-- app._clean_text. -/
def clean_text (txt : String) : String :=
  String.mk (pyStripL (collapseWsAux false txt.toList))

/-- app.fetch_full_article: best-effort extraction, empty string on any failure. -/
def fetch_full_article (ex : Extractor) (url : String) : String :=
  if url = "" then ""
  else
    match ex url with
    | none => ""
    | some text => clean_text text

/-- Loop body of app.build_full_sources: one Source per raw result (a non-dict
result yields empty fields), content truncated to `MAX_CHARS_PER_SOURCE` when
nonempty. -/
def build_one_source (ex : Extractor) (r : Option SearchResult) : Source :=
  let title := match r with | some d => d.title | none => ""
  let url := match r with | some d => if d.url ≠ "" then d.url else d.link | none => ""
  let snippet := match r with | some d => d.snippet | none => ""
  let content0 := if url ≠ "" then fetch_full_article ex url else ""
  let content := if content0 ≠ "" then pySlice content0 MAX_CHARS_PER_SOURCE else content0
  { title := title, url := url, snippet := snippet, content := content }

/-- app.build_full_sources. -/
def build_full_sources (ex : Extractor) : List (Option SearchResult) → List Source
  | [] => []
  | r :: rest => build_one_source ex r :: build_full_sources ex rest

/-- One numbered line of app._sources_as_system_block. -/
def sourceLine (i : Nat) (s : Source) : String :=
  let body := if s.content ≠ "" then s.content else s.snippet
  let excerpt := if body.length > 500 then pySlice body 500 ++ "…" else body
  let t := s.title
  let u := s.url
  "[" ++ toString i ++ "] " ++ t ++ "\nURL: " ++ u ++ "\n" ++ excerpt

/-- The numbered lines of app._sources_as_system_block, 1-indexed. -/
def blockLines : Nat → List Source → List String
  | _, [] => []
  | i, s :: rest => sourceLine i s :: blockLines (i + 1) rest

/-- app._sources_as_system_block. -/
def sources_as_system_block (sources : List Source) : String :=
  joinSep "\n\n" (blockLines 1 sources)

/-- The instructional system message of app._create_initial_session. -/
def initialInstruction : String :=
  "You are allowed to use the following RAG sources in all future responses. When the user says \x27first link\x27 or \x27second link\x27, refer to the numbered list below."

/-- The four-message transcript a new session starts with. -/
def initialTranscript (user_q bot_answer_plain : String) (sources : List Source) : Transcript :=
  [⟨"system", initialInstruction⟩,
   ⟨"system", "RAG_SOURCES:\n" ++ sources_as_system_block sources⟩,
   ⟨"user", user_q⟩,
   ⟨"assistant", bot_answer_plain⟩]

/-- app._create_initial_session (the fresh uuid is passed in as `session_id`). -/
def create_initial_session (session_id user_q bot_answer_plain : String)
    (sources : List Source) (st : St) : St :=
  { sessions := insertA st.sessions session_id (initialTranscript user_q bot_answer_plain sources),
    sources := insertA st.sources session_id sources }

/-- app._append_and_get_reply.  `SESSIONS.get` returns the stored list itself,
so the in-place append of the user message is visible in the store before the
model call; the assistant reply is appended after it returns. -/
def append_and_get_reply (post : ChatPost) (sessions : List (String × Transcript))
    (session_id user_text : String) : List (String × Transcript) × String :=
  let history := (lookupA sessions session_id).getD []
  let history1 := history ++ [⟨"user", user_text⟩]
  let sessions1 := insertA sessions session_id history1
  let reply := chatbot_chat post history1
  (insertA sessions1 session_id (history1 ++ [⟨"assistant", reply⟩]), reply)

/-! ### app.py: link index detection -/

/-- app.ORDINAL_TO_INDEX, in dict insertion order. -/
def ORDINAL_TO_INDEX : List (String × Nat) :=
  [("first", 1), ("1st", 1),
   ("second", 2), ("2nd", 2),
   ("third", 3), ("3rd", 3),
   ("fourth", 4), ("4th", 4),
   ("fifth", 5), ("5th", 5),
   ("sixth", 6), ("6th", 6),
   ("seventh", 7), ("7th", 7),
   ("eighth", 8), ("8th", 8),
   ("ninth", 9), ("9th", 9),
   ("tenth", 10), ("10th", 10)]

/-- The verb alternation of the first two LINK_PATTERNS:
`(?:summarize|summary|details|more\s+details|explain|about)`. -/
def verbAlt : Rgx :=
  altList [lit "summarize", lit "summary", lit "details",
           catList [lit "more", .plusCls isSpaceChar, lit "details"],
           lit "explain", lit "about"]

/-- Pattern `(?:summarize|...|about)\s+(?:link\s*)?#?(\d+)`. -/
def pat1 : Rgx :=
  catList [verbAlt, .plusCls isSpaceChar,
           .opt (catList [lit "link", .starCls isSpaceChar]),
           .opt (lit "#"), .grpCls isDigitChar]

/-- Pattern `(?:summarize|...|about)\s+the\s+(\w+)\s+(?:link|one)`. -/
def pat2 : Rgx :=
  catList [verbAlt, .plusCls isSpaceChar, lit "the", .plusCls isSpaceChar,
           .grpCls isWordChar, .plusCls isSpaceChar, altList [lit "link", lit "one"]]

/-- Pattern `(?:link|#)\s*(\d+)`. -/
def pat3 : Rgx :=
  catList [altList [lit "link", lit "#"], .starCls isSpaceChar, .grpCls isDigitChar]

/-- Pattern `\b(\w+)\s+link\b`. -/
def pat4 : Rgx :=
  catList [.bnd, .grpCls isWordChar, .plusCls isSpaceChar, lit "link", .bnd]

/-- app.LINK_PATTERNS, in priority order. -/
def LINK_PATTERNS : List Rgx :=
  [pat1, pat2, pat3, pat4]

/-- Pattern `\b{word}\s+(?:link|one)\b` of the ordinal fallback scan. -/
def ordinalPat (word : String) : Rgx :=
  catList [.bnd, lit word, .plusCls isSpaceChar, altList [lit "link", lit "one"], .bnd]

/-- The `for pat in LINK_PATTERNS` loop of app.detect_link_index.
`some r` means the Python function returns `r` here (where the digit branch
may return `None` for an index below 1); `none` means the loop falls through. -/
def tryLinkPatterns : List Rgx → List Char → Option (Option Nat)
  | [], _ => none
  | p :: ps, text =>
    match reSearch p text with
    | some gs =>
      match gs.head? with
      | some g =>
        if g ≠ [] ∧ g.all isDigitChar then
          let idx := natOfDigits g
          some (if 1 ≤ idx then some idx else none)
        else
          match lookupA ORDINAL_TO_INDEX (String.mk g) with
          | some v => some (some v)
          | none => tryLinkPatterns ps text
      | none => tryLinkPatterns ps text
    | none => tryLinkPatterns ps text

/-- The final ordinal scan of app.detect_link_index. -/
def scanOrdinals : List (String × Nat) → List Char → Option Nat
  | [], _ => none
  | (w, i) :: rest, text =>
    if (reSearch (ordinalPat w) text).isSome then some i else scanOrdinals rest text

/-- app.detect_link_index. -/
def detect_link_index (user_text : String) : Option Nat :=
  if user_text = "" then none
  else
    let text := pyStripL (pyLowerL user_text.toList)
    match tryLinkPatterns LINK_PATTERNS text with
    | some r => r
    | none => scanOrdinals ORDINAL_TO_INDEX text

/-- Pattern `(\d+)\s*(?:and|&|,|vs|versus)\s*(\d+)` of app.detect_two_links. -/
def pairPat : Rgx :=
  catList [.grpCls isDigitChar, .starCls isSpaceChar,
           altList [lit "and", lit "&", lit ",", lit "vs", lit "versus"],
           .starCls isSpaceChar, .grpCls isDigitChar]

/-- app.detect_two_links. -/
def detect_two_links (user_text : String) : Option (Nat × Nat) :=
  if user_text = "" then none
  else
    let text0 := pyStripL (pyLowerL user_text.toList)
    let text := ORDINAL_TO_INDEX.foldl
      (fun t p => replaceAllL p.1.toList (toString p.2).toList t) text0
    match reSearch pairPat text with
    | some gs =>
      match gs.head?, (gs.drop 1).head? with
      | some g1, some g2 =>
        let idx1 := natOfDigits g1
        let idx2 := natOfDigits g2
        if 1 ≤ idx1 ∧ 1 ≤ idx2 then some (idx1, idx2) else none
      | _, _ => none
    | none => none

/-! ### app.py: the /api/ask and /api/chat endpoints -/

/-- The JSON payload of a successful /api/ask response. -/
structure AskResult where
  answer : String
  sources : List (Option SearchResult)
  session_id : Option String
deriving DecidableEq

deriving instance DecidableEq for Except

/-- The search collaborator (search.web_search): never raises. -/
abbrev SearchFn := String → Nat → List (Option SearchResult)

/-- The routing block of app.api_ask: classifier bypass, else search + RAG
with sentinel fallback; yields (answer, raw results, enriched sources). -/
def ask_route (post : ChatPost) (searchFn : SearchFn) (ex : Extractor)
    (query : String) : String × List (Option SearchResult) × List Source :=
  if is_simple_logical_query query then
    (generate_general_answer post query, [], [])
  else
    let results := searchFn query 6
    let full_sources := build_full_sources ex results
    if full_sources ≠ [] ∧ 0 < results.length then
      let answer := generate_answer_from_sources post query (full_sources.map some)
      if answer = RAG_FAILURE_CODE then
        (generate_general_answer post query, [], [])
      else (answer, results, full_sources)
    else (generate_general_answer post query, [], [])

/-- app.api_ask.  The fresh uuid is passed in as `fresh_id`; the HTTP 400 for
an empty query is the `Except.error` case. -/
def api_ask (post : ChatPost) (searchFn : SearchFn) (ex : Extractor)
    (fresh_id raw_query : String) (st : St) : St × Except String AskResult :=
  let query := pyStripS raw_query
  if query = "" then (st, .error "Query parameter is required.")
  else
    let route := ask_route post searchFn ex query
    let answer := route.1
    let results := route.2.1
    let full_sources := route.2.2
    if answer ≠ "" ∧ py_startswith answer "ERROR:" = false then
      let plain_answer := py_replace answer "<br>" "\n"
      let st1 := create_initial_session fresh_id query plain_answer full_sources st
      (st1, .ok ⟨py_replace answer "\n" "<br>", results, some fresh_id⟩)
    else
      (st, .ok ⟨py_replace answer "\n" "<br>", results, none⟩)

/-- The outcome of a /api/chat request. -/
inductive ChatOutcome where
  | ok (session_id : String) (answer : String) : ChatOutcome
  | badRequest (msg : String) : ChatOutcome
  | notFound (msg : String) : ChatOutcome
deriving DecidableEq

/-- The compare fast path of app.api_chat; `none` means control falls through
(no pair detected, or an index out of bounds). -/
def chat_compare_path (post : ChatPost) (st : St) (session_id user_msg : String) :
    Option (St × ChatOutcome) :=
  match detect_two_links user_msg with
  | none => none
  | some (idx1, idx2) =>
    let srcs := (lookupA st.sources session_id).getD []
    if 1 ≤ idx1 ∧ idx1 ≤ srcs.length ∧ 1 ≤ idx2 ∧ idx2 ≤ srcs.length then
      let s1 := (srcs.get? (idx1 - 1)).getD ⟨"", "", "", ""⟩
      let s2 := (srcs.get? (idx2 - 1)).getD ⟨"", "", "", ""⟩
      let sources_for_model : List (Option Source) :=
        [some ⟨s1.title, s1.url, s1.snippet, s1.content⟩,
         some ⟨s2.title, s2.url, s2.snippet, s2.content⟩]
      let question :=
        "Compare ONLY these two sources (# " ++ toString idx1 ++ " and # " ++ toString idx2 ++
        "). Highlight similarities, differences, main arguments, tone, and key insights. User request: " ++
        user_msg
      let reply0 := generate_answer_from_sources post question sources_for_model
      let reply := if reply0 = RAG_FAILURE_CODE then generate_general_answer post user_msg else reply0
      let history := (lookupA st.sessions session_id).getD []
      let history2 := history ++ [⟨"user", user_msg⟩, ⟨"assistant", reply⟩]
      some ({ st with sessions := insertA st.sessions session_id history2 },
            .ok session_id (py_replace reply "\n" "<br>"))
    else none

/-- The just-in-time target rebuild of the summarize fast path (app.api_chat,
lines 375-384): when both content and snippet are blank the article is
re-fetched into a fresh record; otherwise the stored record is used as is.
The re-fetched content is not truncated. -/
def jit_target (ex : Extractor) (target : Source) : Source :=
  let body := pyStripS (if target.content ≠ "" then target.content else target.snippet)
  if body = "" then
    ⟨target.title, target.url, target.snippet, fetch_full_article ex target.url⟩
  else target

/-- The summarize fast path of app.api_chat; `none` means control falls through. -/
def chat_summarize_path (post : ChatPost) (ex : Extractor) (st : St)
    (session_id user_msg : String) : Option (St × ChatOutcome) :=
  match detect_link_index user_msg with
  | none => none
  | some idx =>
    let srcs := (lookupA st.sources session_id).getD []
    if 1 ≤ idx ∧ idx ≤ srcs.length then
      let target := jit_target ex ((srcs.get? (idx - 1)).getD ⟨"", "", "", ""⟩)
      let question := "Summarize ONLY the selected source (#" ++ toString idx ++ "). " ++ user_msg
      let reply0 := generate_answer_from_sources post question [some target]
      let reply := if reply0 = RAG_FAILURE_CODE then generate_general_answer post user_msg else reply0
      let history := (lookupA st.sessions session_id).getD []
      let history2 := history ++ [⟨"user", user_msg⟩, ⟨"assistant", reply⟩]
      some ({ st with sessions := insertA st.sessions session_id history2 },
            .ok session_id (py_replace reply "\n" "<br>"))
    else none

/-- app.api_chat.  Every embedded operation inside the Python `try` block is
total (the summarizer catches its own network failures and renders them as
error-tagged strings), so the 500 handler of the source has no reachable
raiser and does not appear as an outcome. -/
def api_chat (post : ChatPost) (ex : Extractor) (st : St)
    (raw_session raw_query : String) : St × ChatOutcome :=
  let session_id := pyStripS raw_session
  let user_msg := pyStripS raw_query
  if session_id = "" ∨ user_msg = "" then
    (st, .badRequest "session_id and query are required")
  else if (lookupA st.sessions session_id).isNone then
    (st, .notFound "Invalid or expired chat session ID.")
  else
    match chat_compare_path post st session_id user_msg with
    | some r => r
    | none =>
      match chat_summarize_path post ex st session_id user_msg with
      | some r => r
      | none =>
        let step := append_and_get_reply post st.sessions session_id user_msg
        ({ st with sessions := step.1 }, .ok session_id (py_replace step.2 "\n" "<br>"))

/-! ### Store lemmas -/

theorem lookupA_insertA_self {α : Type} (l : List (String × α)) (k : String) (v : α) :
    lookupA (insertA l k v) k = some v := by
  induction l with
  | nil => simp [insertA, lookupA]
  | cons p rest ih =>
    by_cases hp : p.1 = k
    · simp [insertA, lookupA, hp]
    · simp [insertA, lookupA, hp, ih]

theorem pySlice_length_le (s : String) (n : Nat) : (pySlice s n).length ≤ n := by
  show (s.toList.take n).length ≤ n
  simp [List.length_take_le]

theorem build_full_sources_length (ex : Extractor) (rs : List (Option SearchResult)) :
    (build_full_sources ex rs).length = rs.length := by
  induction rs with
  | nil => rfl
  | cons r rest ih => simp [build_full_sources, ih]

/-! ### C2: content-length bound of produced Source records -/

theorem content_cap_le (c : String) :
    (if c ≠ "" then pySlice c MAX_CHARS_PER_SOURCE else c).length ≤ MAX_CHARS_PER_SOURCE := by
  by_cases h : c = ""
  · subst h; decide
  · rw [if_pos h]
    exact pySlice_length_le _ _

theorem build_one_source_content_le (ex : Extractor) (r : Option SearchResult) :
    (build_one_source ex r).content.length ≤ MAX_CHARS_PER_SOURCE := by
  unfold build_one_source
  dsimp only
  exact content_cap_le _

/-- C2 (amended): every Source record built by build_full_sources has content
of length at most MAX_CHARS_PER_SOURCE (6000). -/
theorem build_full_sources_content_bounded (ex : Extractor)
    (rs : List (Option SearchResult)) (s : Source)
    (hs : s ∈ build_full_sources ex rs) : s.content.length ≤ MAX_CHARS_PER_SOURCE := by
  induction rs with
  | nil => simp [build_full_sources] at hs
  | cons r rest ih =>
    rcases List.mem_cons.mp hs with h1 | h2
    · subst h1; exact build_one_source_content_le ex r
    · exact ih h2

theorem build_full_sources_content_bounded_witness :
    (⟨"t", "u", "sn", "hello world"⟩ : Source) ∈
      build_full_sources (fun _ => some "hello   world")
        [some ⟨"t", "u", "", "sn"⟩] ∧
    ("hello world".length ≤ MAX_CHARS_PER_SOURCE) :=
  ⟨by decide,
   build_full_sources_content_bounded (fun _ => some "hello   world")
     [some ⟨"t", "u", "", "sn"⟩] ⟨"t", "u", "sn", "hello world"⟩ (by decide)⟩

theorem collapseWs_replicate (b : Bool) (n : Nat) :
    collapseWsAux b (List.replicate n 'a') = List.replicate n 'a' := by
  have ha : isSpaceChar 'a' = false := by decide
  induction n generalizing b with
  | zero => simp [collapseWsAux]
  | succ n ih => simp [List.replicate_succ, collapseWsAux, ha, ih]

theorem dropWhile_space_replicate (n : Nat) :
    List.dropWhile isSpaceChar (List.replicate n 'a') = List.replicate n 'a' := by
  have ha : isSpaceChar 'a' = false := by decide
  cases n with
  | zero => rfl
  | succ n => simp [List.replicate_succ, List.dropWhile, ha]

theorem pyStrip_replicate (n : Nat) :
    pyStripL (List.replicate n 'a') = List.replicate n 'a' := by
  rw [pyStripL, dropWhile_space_replicate, List.reverse_replicate,
    dropWhile_space_replicate, List.reverse_replicate]

theorem clean_text_replicate (n : Nat) :
    clean_text (String.mk (List.replicate n 'a')) = String.mk (List.replicate n 'a') := by
  show String.mk (pyStripL (collapseWsAux false (List.replicate n 'a')))
      = String.mk (List.replicate n 'a')
  rw [collapseWs_replicate, pyStrip_replicate]

/-- C2 (counterexample): the just-in-time re-fetch of the summarize fast path
does not truncate: an extraction of 6001 non-whitespace characters yields a
rebuilt Source record whose content exceeds MAX_CHARS_PER_SOURCE. -/
theorem jit_target_content_unbounded :
    MAX_CHARS_PER_SOURCE <
      ((jit_target (fun _ => some (String.mk (List.replicate 6001 'a')))
        ⟨"t", "u", "", ""⟩).content).length := by
  have h1 : jit_target (fun _ => some (String.mk (List.replicate 6001 'a'))) ⟨"t", "u", "", ""⟩
      = ⟨"t", "u", "", clean_text (String.mk (List.replicate 6001 'a'))⟩ := rfl
  rw [h1]
  show MAX_CHARS_PER_SOURCE < (clean_text (String.mk (List.replicate 6001 'a'))).length
  rw [clean_text_replicate]
  show MAX_CHARS_PER_SOURCE < (List.replicate 6001 'a').length
  rw [List.length_replicate]
  decide

/-! ### C4: shape of a freshly created session transcript -/

/-- C4: immediately after a session is created from query `q`, answer `a` and
source list `srcs`, its transcript is exactly four messages: the instructional
system message, a system message encoding the numbered source list, the user
message `q`, and the assistant message `a`. -/
theorem session_creation_invariant (session_id q a : String) (srcs : List Source) (st : St) :
    lookupA (create_initial_session session_id q a srcs st).sessions session_id
        = some (initialTranscript q a srcs) ∧
    (initialTranscript q a srcs).length = 4 ∧
    (initialTranscript q a srcs).get? 0 = some ⟨"system", initialInstruction⟩ ∧
    (initialTranscript q a srcs).get? 1
        = some ⟨"system", "RAG_SOURCES:\n" ++ sources_as_system_block srcs⟩ ∧
    (initialTranscript q a srcs).get? 2 = some ⟨"user", q⟩ ∧
    (initialTranscript q a srcs).get? 3 = some ⟨"assistant", a⟩ :=
  ⟨lookupA_insertA_self _ _ _, rfl, rfl, rfl, rfl, rfl⟩

/-! ### C7: the retrieval-bypass classifier -/

/-- The bypass policy in the words of the specification: at least one marker
from the fixed set occurs in the (lower-cased, trimmed) query, the query
contains a digit, and it splits into fewer than 7 whitespace tokens. -/
def bypassPolicy (q : String) : Prop :=
  (∃ m ∈ arithmetic_keywords, isSubstrOf m.toList (pyStripL (pyLowerL q.toList)) = true) ∧
  (∃ c ∈ pyStripL (pyLowerL q.toList), c.isDigit = true) ∧
  (pySplit (pyStripL (pyLowerL q.toList))).length < 7

/-- C7: `is_simple_logical_query` bypasses retrieval exactly on the queries
satisfying the marker/digit/token-count policy; "2+2" bypasses and
"what is the capital of France" does not. -/
theorem is_simple_logical_query_spec :
    (∀ q : String, is_simple_logical_query q = true ↔ bypassPolicy q) ∧
    is_simple_logical_query "2+2" = true ∧
    is_simple_logical_query "what is the capital of France" = false := by
  refine ⟨fun q => ?_, by decide, by decide⟩
  simp [is_simple_logical_query, bypassPolicy, List.any_eq_true, and_assoc]

theorem is_simple_logical_query_spec_witness : bypassPolicy "2+2" :=
  (is_simple_logical_query_spec.1 "2+2").mp is_simple_logical_query_spec.2.1

/-! ### C10: the grounded generator short-circuits on empty source bodies -/

/-- Whether a raw source-list entry is a non-dict or has an empty content and
snippet (so it contributes no block to the grounded prompt). -/
def empty_body : Option Source → Bool
  | none => true
  | some d => d.content == "" && d.snippet == ""

theorem buildBlocks_nil_of_empty (l : List Source)
    (h : ∀ s ∈ l, s.content = "" ∧ s.snippet = "") : ∀ i : Nat, buildBlocks i l = [] := by
  induction l with
  | nil => intro i; rfl
  | cons s rest ih =>
    intro i
    obtain ⟨hc, hs⟩ := h s (by simp)
    simp only [buildBlocks, hc, hs]
    simp only [ne_eq, not_true_eq_false, if_false, if_pos rfl]
    exact ih (fun x hx => h x (by simp [hx])) (i + 1)

/-- C10: when every entry of the source list is a non-dict or has both content
and snippet empty (in particular when the list is empty), the grounded
generator returns the insufficient-context sentinel for every possible
language-model backend, i.e. without consulting it. -/
theorem generate_answer_insufficient_short_circuit (post : ChatPost) (q : String)
    (srcs : List (Option Source)) (h : ∀ o ∈ srcs, empty_body o = true) :
    generate_answer_from_sources post q srcs = RAG_FAILURE_CODE := by
  have hnorm : ∀ s ∈ srcs.filterMap id, s.content = "" ∧ s.snippet = "" := by
    intro s hs
    obtain ⟨o, ho, hoe⟩ := List.mem_filterMap.mp hs
    have := h o ho
    cases o with
    | none => cases hoe
    | some d =>
      cases hoe
      simpa [empty_body, Bool.and_eq_true, beq_iff_eq] using this
  unfold generate_answer_from_sources
  by_cases hn : srcs.filterMap id = []
  · simp [hn]
  · simp only [if_neg hn]
    rw [buildBlocks_nil_of_empty _ hnorm 1]
    simp

theorem generate_answer_insufficient_witness :
    generate_answer_from_sources (fun _ => Except.ok "never used") "anything"
      [none, some ⟨"title", "url", "", ""⟩] = RAG_FAILURE_CODE :=
  generate_answer_insufficient_short_circuit (fun _ => Except.ok "never used") "anything"
    [none, some ⟨"title", "url", "", ""⟩] (by decide)

/-! ### C3: session creation and error-tagged answers -/

/-- C3 (code evaluation at the failing input): a query on the general path
whose model call fails yields the error-tagged answer
"[ERROR] Failed to call Ollama chat: boom"; api_ask nevertheless creates a
session and returns its id, because it filters on the prefix "ERROR:" while
the collaborators tag errors with "[ERROR]". -/
theorem error_tagged_answer_creates_session :
    (api_ask (fun _ => Except.error "boom") (fun _ _ => []) (fun _ => none)
        "sid0" "2+2" ⟨[], []⟩).2
      = Except.ok ⟨"[ERROR] Failed to call Ollama chat: boom", [], some "sid0"⟩ := by
  decide

/-! ### C5 and C6: the reference resolver -/

theorem lookupA_nat_ge_one (l : List (String × Nat)) (hall : ∀ p ∈ l, 1 ≤ p.2)
    (k : String) (v : Nat) (h : lookupA l k = some v) : 1 ≤ v := by
  induction l with
  | nil => cases h
  | cons p rest ih =>
    rw [lookupA] at h
    split at h
    · cases h; exact hall p (by simp)
    · exact ih (fun q hq => hall q (by simp [hq])) h

theorem ordinal_values_ge_one : ∀ p ∈ ORDINAL_TO_INDEX, 1 ≤ p.2 := by decide

theorem tryLinkPatterns_ge_one (ps : List Rgx) (t : List Char) (i : Nat)
    (h : tryLinkPatterns ps t = some (some i)) : 1 ≤ i := by
  induction ps with
  | nil => cases h
  | cons p rest ih =>
    rw [tryLinkPatterns] at h
    split at h
    · split at h
      · split at h
        · simp only [] at h
          split at h
          · cases h; assumption
          · cases h
        · split at h
          · cases h
            exact lookupA_nat_ge_one ORDINAL_TO_INDEX ordinal_values_ge_one _ _ (by assumption)
          · exact ih h
      · exact ih h
    · exact ih h

theorem scanOrdinals_ge_one (l : List (String × Nat)) (hall : ∀ p ∈ l, 1 ≤ p.2)
    (t : List Char) (i : Nat) (h : scanOrdinals l t = some i) : 1 ≤ i := by
  induction l with
  | nil => cases h
  | cons p rest ih =>
    rw [scanOrdinals] at h
    split at h
    · cases h; exact hall p (by simp)
    · exact ih (fun q hq => hall q (by simp [hq])) h

theorem detect_link_index_ge_one (s : String) (i : Nat)
    (h : detect_link_index s = some i) : 1 ≤ i := by
  rw [detect_link_index] at h
  split at h
  · cases h
  · simp only [] at h
    split at h
    · rename_i htry
      cases h
      exact tryLinkPatterns_ge_one _ _ _ htry
    · exact scanOrdinals_ge_one ORDINAL_TO_INDEX ordinal_values_ge_one _ _ h

/-- C5: detect_link_index resolves "summarize link 3" to 3 and
"tell me about the second link" to 2, rejects "hello", and never returns an
index below 1 on any input. -/
theorem detect_link_index_spec :
    detect_link_index "summarize link 3" = some 3 ∧
    detect_link_index "tell me about the second link" = some 2 ∧
    detect_link_index "hello" = none ∧
    ∀ (s : String) (i : Nat), detect_link_index s = some i → 1 ≤ i :=
  ⟨by decide, by decide, by decide, detect_link_index_ge_one⟩

theorem detect_link_index_spec_witness : 1 ≤ 3 :=
  detect_link_index_spec.2.2.2 "summarize link 3" 3 (by decide)

theorem detect_two_links_ge_one (s : String) (p : Nat × Nat)
    (h : detect_two_links s = some p) : 1 ≤ p.1 ∧ 1 ≤ p.2 := by
  rw [detect_two_links] at h
  split at h
  · cases h
  · simp only [] at h
    split at h
    · split at h
      · split at h
        · cases h; assumption
        · cases h
      · cases h
    · cases h

/-- C6: detect_two_links resolves "compare 1 and 3" and "first vs third" to
the pair (1, 3), rejects "just one link", and only ever returns pairs whose
two components are both at least 1. -/
theorem detect_two_links_spec :
    detect_two_links "compare 1 and 3" = some (1, 3) ∧
    detect_two_links "first vs third" = some (1, 3) ∧
    detect_two_links "just one link" = none ∧
    ∀ (s : String) (p : Nat × Nat), detect_two_links s = some p → 1 ≤ p.1 ∧ 1 ≤ p.2 :=
  ⟨by decide, by decide, by decide, detect_two_links_ge_one⟩

theorem detect_two_links_spec_witness : 1 ≤ (1, 3).1 ∧ 1 ≤ (1, 3).2 :=
  detect_two_links_spec.2.2.2 "compare 1 and 3" (1, 3) (by decide)

/-! ### C8: sentinel fallback to general reasoning on a fresh query -/

/-- C8: on a fresh query that is not bypassed, where search returned at least
one result and the grounded generator answered with the insufficient-context
sentinel, api_ask answers with the general-reasoning output on the raw query
and reports an empty source list. -/
theorem rag_sentinel_fallback (post : ChatPost) (searchFn : SearchFn) (ex : Extractor)
    (fresh_id q : String) (st : St)
    (hq : pyStripS q = q) (hq0 : q ≠ "")
    (hclass : is_simple_logical_query q = false)
    (hres : 0 < (searchFn q 6).length)
    (hrag : generate_answer_from_sources post q
        ((build_full_sources ex (searchFn q 6)).map some) = RAG_FAILURE_CODE) :
    ∃ r : AskResult, (api_ask post searchFn ex fresh_id q st).2 = Except.ok r ∧
      r.sources = [] ∧ r.answer = py_replace (generate_general_answer post q) "\n" "<br>" := by
  have hfull : build_full_sources ex (searchFn q 6) ≠ [] := by
    intro hnil
    rw [← build_full_sources_length ex (searchFn q 6), hnil] at hres
    simp at hres
  have hroute : ask_route post searchFn ex q = (generate_general_answer post q, [], []) := by
    simp only [ask_route, hclass, Bool.false_eq_true, if_false]
    rw [if_pos (And.intro hfull hres), if_pos hrag]
  simp only [api_ask, hq]
  rw [if_neg hq0, hroute]
  dsimp only
  split
  · exact ⟨_, rfl, rfl, rfl⟩
  · exact ⟨_, rfl, rfl, rfl⟩

theorem rag_sentinel_fallback_witness :
    ∃ r : AskResult,
      (api_ask (fun _ => Except.ok "General answer.")
          (fun _ _ => [some ⟨"t", "", "", ""⟩]) (fun _ => none)
          "sid0" "news today" ⟨[], []⟩).2 = Except.ok r ∧
      r.sources = [] ∧
      r.answer = py_replace
        (generate_general_answer (fun _ => Except.ok "General answer.") "news today")
        "\n" "<br>" :=
  rag_sentinel_fallback (fun _ => Except.ok "General answer.")
    (fun _ _ => [some ⟨"t", "", "", ""⟩]) (fun _ => none) "sid0" "news today" ⟨[], []⟩
    (by decide) (by decide) (by decide) (by decide) (by decide)

/-! ### C9: follow-ups never mutate the stored source list -/

theorem chat_compare_path_sources (post : ChatPost) (st : St) (sid m : String)
    (r : St × ChatOutcome) (h : chat_compare_path post st sid m = some r) :
    r.1.sources = st.sources := by
  rw [chat_compare_path] at h
  split at h
  · cases h
  · simp only [] at h
    split at h
    · cases h; rfl
    · cases h

theorem chat_summarize_path_sources (post : ChatPost) (ex : Extractor) (st : St)
    (sid m : String) (r : St × ChatOutcome)
    (h : chat_summarize_path post ex st sid m = some r) : r.1.sources = st.sources := by
  rw [chat_summarize_path] at h
  split at h
  · cases h
  · simp only [] at h
    split at h
    · cases h; rfl
    · cases h

/-- C9: a follow-up request on an existing session leaves the stored source
list exactly as it was; in particular the just-in-time re-fetch of the
summarize fast path only builds a temporary record. -/
theorem api_chat_preserves_sources (post : ChatPost) (ex : Extractor) (st : St)
    (sid msg : String)
    (_hexists : (lookupA st.sessions (pyStripS sid)).isSome = true) :
    (api_chat post ex st sid msg).1.sources = st.sources := by
  rw [api_chat]
  simp only []
  split
  · rfl
  · split
    · rfl
    · split
      · rename_i r hr
        exact chat_compare_path_sources _ _ _ _ _ hr
      · split
        · rename_i r hr
          exact chat_summarize_path_sources _ _ _ _ _ _ hr
        · rfl

theorem api_chat_preserves_sources_witness :
    (api_chat (fun _ => Except.ok "Summary.")
        (fun _ => some "refetched text")
        ⟨[("s", [⟨"system", "sys"⟩])], [("s", [⟨"T", "u", "", ""⟩])]⟩
        "s" "summarize link 1").1.sources
      = (⟨[("s", [⟨"system", "sys"⟩])], [("s", [⟨"T", "u", "", ""⟩])]⟩ : St).sources :=
  api_chat_preserves_sources (fun _ => Except.ok "Summary.")
    (fun _ => some "refetched text")
    ⟨[("s", [⟨"system", "sys"⟩])], [("s", [⟨"T", "u", "", ""⟩])]⟩
    "s" "summarize link 1" (by decide)

/-! ### C1: follow-up behaviour when the language-model call fails -/

theorem chat_compare_path_none_of (post : ChatPost) (st : St) (sid m : String)
    (h : detect_two_links m = none) : chat_compare_path post st sid m = none := by
  rw [chat_compare_path, h]

theorem chat_summarize_path_none_of (post : ChatPost) (ex : Extractor) (st : St)
    (sid m : String) (h : detect_link_index m = none) :
    chat_summarize_path post ex st sid m = none := by
  rw [chat_summarize_path, h]

/-- C1 (amended): on a default-path follow-up whose model call fails, the
failure is absorbed inside the summarizer wrapper as an error-tagged string;
the request completes as a success carrying that string, and the transcript
gains the user message (appended before the model call) and the error-tagged
assistant reply. -/
theorem follow_up_model_failure_behavior (post : ChatPost) (ex : Extractor) (st : St)
    (sid msg e : String) (h : Transcript)
    (hsid : pyStripS sid = sid) (hmsg : pyStripS msg = msg)
    (hsid0 : sid ≠ "") (hmsg0 : msg ≠ "")
    (hsess : lookupA st.sessions sid = some h)
    (hpair : detect_two_links msg = none)
    (hidx : detect_link_index msg = none)
    (hpost : post (chat_request_msgs (h ++ [⟨"user", msg⟩])) = Except.error e) :
    (api_chat post ex st sid msg).2
        = ChatOutcome.ok sid
            (py_replace ("[ERROR] Failed to call Ollama chat: " ++ e) "\n" "<br>") ∧
    lookupA (api_chat post ex st sid msg).1.sessions sid
        = some (h ++ [⟨"user", msg⟩,
            ⟨"assistant", "[ERROR] Failed to call Ollama chat: " ++ e⟩]) := by
  have hcmp := chat_compare_path_none_of post st sid msg hpair
  have hsum := chat_summarize_path_none_of post ex st sid msg hidx
  simp only [api_chat, hsid, hmsg]
  rw [if_neg (by simp [hsid0, hmsg0])]
  simp only [hsess, Option.isNone_some, Bool.false_eq_true, if_false, hcmp, hsum]
  simp only [append_and_get_reply, hsess, Option.getD_some, chatbot_chat, ollama_chat, hpost]
  refine ⟨trivial, ?_⟩
  rw [lookupA_insertA_self]
  simp

theorem follow_up_model_failure_witness :
    (api_chat (fun hist => if hist.length = 2 then Except.error "timeout" else Except.ok "x")
        (fun _ => none) ⟨[("s", [⟨"system", "sys"⟩])], []⟩ "s" "hello").2
      = ChatOutcome.ok "s"
          (py_replace ("[ERROR] Failed to call Ollama chat: " ++ "timeout") "\n" "<br>") ∧
    lookupA (api_chat
        (fun hist => if hist.length = 2 then Except.error "timeout" else Except.ok "x")
        (fun _ => none) ⟨[("s", [⟨"system", "sys"⟩])], []⟩ "s" "hello").1.sessions "s"
      = some [⟨"system", "sys"⟩, ⟨"user", "hello"⟩,
          ⟨"assistant", "[ERROR] Failed to call Ollama chat: " ++ "timeout"⟩] := by
  have := follow_up_model_failure_behavior
    (fun hist => if hist.length = 2 then Except.error "timeout" else Except.ok "x")
    (fun _ => none) ⟨[("s", [⟨"system", "sys"⟩])], []⟩ "s" "hello" "timeout"
    [⟨"system", "sys"⟩] (by decide) (by decide) (by decide) (by decide) (by decide)
    (by decide) (by decide) (by decide)
  exact this

/-- C1 (counterexample): with a failing language-model collaborator, a
follow-up on an existing session is answered as a success carrying the
error-tagged string, and the stored transcript is changed (it gains the user
message and the error-tagged assistant reply), contradicting the claim that
the request is reported as an error and the transcript left untouched. -/
theorem follow_up_failure_counterexample :
    ((api_chat (fun _ => Except.error "timeout") (fun _ => none)
        ⟨[("s", [⟨"system", "sys"⟩])], []⟩ "s" "hello").2
      = ChatOutcome.ok "s" "[ERROR] Failed to call Ollama chat: timeout") ∧
    lookupA ((api_chat (fun _ => Except.error "timeout") (fun _ => none)
        ⟨[("s", [⟨"system", "sys"⟩])], []⟩ "s" "hello").1).sessions "s"
      = some [⟨"system", "sys"⟩, ⟨"user", "hello"⟩,
              ⟨"assistant", "[ERROR] Failed to call Ollama chat: timeout"⟩] ∧
    lookupA ((⟨[("s", [⟨"system", "sys"⟩])], []⟩ : St)).sessions "s"
      ≠ some [⟨"system", "sys"⟩, ⟨"user", "hello"⟩,
              ⟨"assistant", "[ERROR] Failed to call Ollama chat: timeout"⟩] := by
  refine ⟨by decide, by decide, by decide⟩

end SearchOBar


